import Mathlib

/-!
Verification of the OpenTMI python client transport layer
(`src/opentmi_client/transport/transport.py`).

The module is a synchronous wrapper over an HTTP client: it keeps a
resolved host URL and an optional bearer token, and exposes
`get_json` / `post_json` / `put_json`, translating HTTP-level and
connection-level failures into a single `TransportException`.

Embedding conventions:
* The underlying HTTP client (`requests`) is an external collaborator;
  each verb receives it as a function from the request it builds to an
  `HttpResult` (either a `Response` or a raised `RequestException`).
* A `Response` is the transient value the spec describes: status code,
  raw body text, and the optionally parsed JSON body (`response.json()`
  respectively `json.loads(response.text)`; a parse failure raises a
  `ValueError` whose text is carried in the `Except.error` branch).
* Python exceptions are modelled with `Except`; logging calls are
  collected into an explicit list of `LogLine`s returned alongside
  the result.
* Mutation of the `Transport` object is explicit state passing.
-/

namespace OpentmiTransport

/-- A JSON value, as produced by the external JSON parser. -/
inductive Json where
  | null : Json
  | bool (b : Bool) : Json
  | num (n : Int) : Json
  | str (s : String) : Json
  | arr (elems : List Json) : Json
  | obj (fields : List (String × Json)) : Json
deriving Repr

/-- A `requests.Response`: status code, raw body text, and the result of
parsing the body as JSON (`Except.error` carries the text of the
`ValueError` raised on malformed bodies). -/
structure Response where
  status_code : Nat
  text : String
  json : Except String Json
deriving Repr

/-- Modelled from the spec: `TransportException` is defined in
`opentmi_client.utils`, which is not under `src/`; per the spec it
"carries a human-readable message and an optional status code". -/
structure TransportException where
  message : String
  code : Option Nat
deriving Repr, DecidableEq

/-- Mutable state of a `Transport` object: the bearer token
(`self.__token`, `None` until `set_token` is called) and the resolved
host URL (`self.__host`). -/
structure Transport where
  token : Option String
  host : String
deriving Repr, DecidableEq

/-- `REQUEST_TIMEOUT = 30` (module-level constant, transport.py line 9). -/
def REQUEST_TIMEOUT : Nat := 30

/-- `NOT_FOUND = 404` (module-level constant, transport.py line 10). -/
def NOT_FOUND : Nat := 404

/-- `Transport.set_host(host, port)`: stores `resolve_host(host, port)`
into `self.__host`. `resolve_host` lives in `opentmi_client.utils`
(not under `src/`) and its URL format is owned by that collaborator,
so it is taken here as an explicit parameter. -/
def set_host (resolve_host : String → Nat → String) (t : Transport)
    (host : String) (port : Nat) : Transport :=
  { t with host := resolve_host host port }

/-- `Transport.set_token(token)`: stores the token and returns `self`.
The pair is (new state, returned object); in the source both are the
same (mutated) instance. -/
def set_token (t : Transport) (token : Option String) :
    Transport × Transport :=
  let t2 := { t with token := token }
  (t2, t2)

/-- Python truthiness of `self.__token` in `if self.__token:`:
`None` and the empty string are falsy. -/
def tokenTruthy : Option String → Bool
  | none => false
  | some s => !s.isEmpty

/-- The header dict constructed in the body of the `Transport.__headers`
property: content-type and Connection always, plus
`Authorization: Bearer <token>` when a (truthy) token has been set. -/
def headersDict (t : Transport) : List (String × String) :=
  let base := [("content-type", "application/json"), ("Connection", "close")]
  match t.token with
  | some tok =>
      if tok.isEmpty then base
      else base ++ [("Authorization", "Bearer " ++ tok)]
  | none => base

/-- The value of the `Transport.__headers` property as the source
evaluates it: the body builds `headersDict` but has no `return`
statement, so the property returns Python's implicit `None`. -/
def headers (t : Transport) : Option (List (String × String)) :=
  let _built := headersDict t
  none

/-- The `files` argument of `requests.post` as a Python value:
either `None` or a list of attachments (modelled by their names). -/
inductive FilesArg where
  | none : FilesArg
  | list (fs : List String) : FilesArg
deriving Repr, DecidableEq

/-- Python truthiness of the literal `None`. -/
def noneTruthy : Bool := false

/-- The expression `files if not None else []` (transport.py line 109):
the condition is `not None`, which is always true, so the expression
evaluates to `files` regardless of its value. -/
def post_files_arg (files : FilesArg) : FilesArg :=
  if !noneTruthy then files else FilesArg.list []

/-- The keyword arguments passed to `requests.get` by `get_json`. -/
structure GetRequest where
  url : String
  headers : Option (List (String × String))
  timeout : Nat
  params : Option (List (String × String))
deriving Repr, DecidableEq

/-- The keyword arguments passed to `requests.post` by `post_json`. -/
structure PostRequest where
  url : String
  json : Json
  headers : Option (List (String × String))
  files : FilesArg
  timeout : Nat
deriving Repr

/-- The keyword arguments passed to `requests.put` by `put_json`. -/
structure PutRequest where
  url : String
  json : Json
  headers : Option (List (String × String))
  timeout : Nat
deriving Repr

/-- The request `get_json` sends. -/
def get_request (t : Transport) (url : String)
    (params : Option (List (String × String))) : GetRequest :=
  { url := url, headers := headers t, timeout := REQUEST_TIMEOUT,
    params := params }

/-- The request `post_json` sends. -/
def post_request (t : Transport) (url : String) (payload : Json)
    (files : FilesArg) : PostRequest :=
  { url := url, json := payload, headers := headers t,
    files := post_files_arg files, timeout := REQUEST_TIMEOUT }

/-- The request `put_json` sends. -/
def put_request (t : Transport) (url : String) (payload : Json) :
    PutRequest :=
  { url := url, json := payload, headers := headers t,
    timeout := REQUEST_TIMEOUT }

/-- Outcome of a call into the underlying HTTP client: a response, or a
raised `requests.RequestException` carrying `str(error)`. -/
inductive HttpResult where
  | success (r : Response) : HttpResult
  | requestError (msg : String) : HttpResult
deriving Repr

/-- Log level used by the transport's logger calls. -/
inductive LogLevel where
  | debug : LogLevel
  | info : LogLevel
  | warning : LogLevel
deriving Repr, DecidableEq

/-- One emitted log line. -/
structure LogLine where
  level : LogLevel
  message : String
deriving Repr, DecidableEq

/-- `Transport.is_success(response)` after its `assert`:
`300 > code >= 200` on `response.status_code`. -/
def is_success (response : Response) : Bool :=
  let code := response.status_code
  decide (300 > code ∧ code ≥ 200)

/-- An arbitrary Python value handed to `Transport.is_success`: either an
actual `Response` instance or some other object. -/
inductive PyValue where
  | response (r : Response) : PyValue
  | other (desc : String) : PyValue
deriving Repr

/-- Text of the error raised by a failing `assert` statement. -/
def assertionError : String := "AssertionError"

/-- `Transport.is_success` including its
`assert isinstance(response, Response)`: for a non-`Response` argument
the assertion raises before `status_code` is read. -/
def is_success_checked (v : PyValue) : Except String Bool :=
  match v with
  | PyValue.response r => Except.ok (is_success r)
  | PyValue.other _ => Except.error assertionError

/-- `Transport.get_json(url, params)`: logs the outgoing GET, issues the
request, then returns the parsed body on success, `None` on 404, and
raises `TransportException` otherwise; a `RequestException` or a JSON
`ValueError` becomes a `TransportException` without a status code.
Returns the emitted log lines alongside the outcome. -/
def get_json (t : Transport) (url : String)
    (params : Option (List (String × String)))
    (client : GetRequest → HttpResult) :
    List LogLine × Except TransportException (Option Json) :=
  let dbg : LogLine := { level := LogLevel.debug, message := "GET: " ++ url }
  match client (get_request t url params) with
  | HttpResult.success r =>
      if is_success r then
        match r.json with
        | Except.ok j => ([dbg], Except.ok (some j))
        | Except.error e => ([dbg], Except.error { message := e, code := none })
      else if r.status_code == NOT_FOUND then
        ([dbg, { level := LogLevel.warning, message := "not found" }],
         Except.ok none)
      else
        ([dbg, { level := LogLevel.warning,
                 message := "Request failed: " ++ r.text ++ " (code: " ++
                   toString r.status_code ++ ")" }],
         Except.error { message := r.text, code := some r.status_code })
  | HttpResult.requestError msg =>
      ([dbg, { level := LogLevel.warning,
               message := "Connection error " ++ msg }],
       Except.error { message := msg, code := none })

/-- `Transport.post_json(url, payload, files)`: issues the POST, parses
the body with `json.loads` on success, and raises `TransportException`
(body text and status code) on any non-2xx status; a `RequestException`
or parse error becomes a `TransportException` without a status code. -/
def post_json (t : Transport) (url : String) (payload : Json)
    (files : FilesArg) (client : PostRequest → HttpResult) :
    List LogLine × Except TransportException Json :=
  match client (post_request t url payload files) with
  | HttpResult.success r =>
      if is_success r then
        match r.json with
        | Except.ok j => ([], Except.ok j)
        | Except.error e => ([], Except.error { message := e, code := none })
      else
        ([{ level := LogLevel.warning,
            message := "status_code: " ++ toString r.status_code },
          { level := LogLevel.warning, message := r.text }],
         Except.error { message := r.text, code := some r.status_code })
  | HttpResult.requestError msg =>
      ([{ level := LogLevel.warning, message := msg }],
       Except.error { message := msg, code := none })

/-- Modelled from the spec: the text `str(error)` of a
`TransportException` (its `__str__` lives with the class in
`opentmi_client.utils`, not under `src/`); the spec says the exception
"carries a human-readable message", so its string form is that
message. -/
def TransportException.toText (e : TransportException) : String :=
  e.message

/-- `Transport.put_json(url, payload)`: like `post_json` without file
attachments, but with a trailing `except Exception` handler. The
`TransportException(response.text, response.status_code)` raised on a
non-2xx status inside the `try` block matches none of the earlier
handlers (`RequestException`, `(ValueError, TypeError)`) but is an
`Exception`, so the catch-all intercepts it, logs it, and re-raises
the one-argument `TransportException(str(error))`: the surfaced
exception carries the inner exception's text and no status code.
Exceptions raised inside the earlier handlers (the `RequestException`
and parse-error paths) propagate without being re-caught by sibling
handlers. -/
def put_json (t : Transport) (url : String) (payload : Json)
    (client : PutRequest → HttpResult) :
    List LogLine × Except TransportException Json :=
  match client (put_request t url payload) with
  | HttpResult.success r =>
      if is_success r then
        match r.json with
        | Except.ok j => ([], Except.ok j)
        | Except.error e => ([], Except.error { message := e, code := none })
      else
        let inner : TransportException :=
          { message := r.text, code := some r.status_code }
        ([{ level := LogLevel.warning,
            message := "status_code: " ++ toString r.status_code },
          { level := LogLevel.warning, message := r.text },
          { level := LogLevel.warning, message := inner.toText }],
         Except.error { message := inner.toText, code := none })
  | HttpResult.requestError msg =>
      ([{ level := LogLevel.warning, message := msg }],
       Except.error { message := msg, code := none })

/-- C1: the claim says every request carries `content-type`,
`Connection: close` and (iff a token is set) `Authorization: Bearer`.
The dict built inside `Transport.__headers` does contain exactly those
entries, but the property has no return statement, so it evaluates to
`None` and every request is sent with `headers = None` — none of the
claimed headers is sent, even after a token is set. -/
theorem headers_property_returns_none :
    (∀ t : Transport, headers t = none) ∧
    headersDict { token := some ("abc"), host := "localhost" } =
      [("content-type", "application/json"), ("Connection", "close"),
       ("Authorization", "Bearer abc")] ∧
    headersDict { token := none, host := "localhost" } =
      [("content-type", "application/json"), ("Connection", "close")] ∧
    (get_request { token := some ("abc"), host := "localhost" }
        ("/x") none).headers = none ∧
    (post_request { token := some ("abc"), host := "localhost" }
        ("/x") Json.null FilesArg.none).headers = none ∧
    (put_request { token := some ("abc"), host := "localhost" }
        ("/x") Json.null).headers = none := by
  exact ⟨fun _ => rfl, rfl, rfl, rfl, rfl, rfl⟩

/-- C2: on a 500 response with body "server error", `get_json` and
`post_json` raise a `TransportException` with that message and code
500, exactly as the claim states; but `put_json`'s trailing catch-all
intercepts the `TransportException` raised on the non-2xx path and
re-raises it in the one-argument form, so the exception `put_json`
surfaces carries no status code — refuting the claim's "code 500 on
all three verbs" for the `put_json` leg. -/
theorem error_status_put_json_loses_code :
    (get_json { token := none, host := "localhost" } ("/x") none
        (fun _ => HttpResult.success
          { status_code := 500, text := "server error",
            json := Except.error "e" })).2 =
      Except.error { message := "server error", code := some 500 } ∧
    (post_json { token := none, host := "localhost" } ("/x") Json.null
        FilesArg.none
        (fun _ => HttpResult.success
          { status_code := 500, text := "server error",
            json := Except.error "e" })).2 =
      Except.error { message := "server error", code := some 500 } ∧
    (put_json { token := none, host := "localhost" } ("/x") Json.null
        (fun _ => HttpResult.success
          { status_code := 500, text := "server error",
            json := Except.error "e" })).2 =
      Except.error { message := "server error", code := none } :=
  ⟨rfl, rfl, rfl⟩

/-- C3 counterexample: the claim says `files = None` is replaced by an
empty list, but when `post_json` is called with `files = None` the
request's files argument is still `None`, not the empty list. -/
theorem post_files_none_not_empty_list :
    (post_request { token := none, host := "localhost" } ("/x") Json.null
        FilesArg.none).files ≠ FilesArg.list [] := by
  decide

/-- C3 amended: the conditional `files if not None else []` always takes
its first branch, because its condition is the literal `not None`
(which is true); `post_json` therefore passes `files` through
unchanged, in particular `None` stays `None`. -/
theorem post_files_passed_through (t : Transport) (url : String)
    (payload : Json) (files : FilesArg) :
    (post_request t url payload files).files = files := rfl

/-- C4: on a 404 response, `get_json` logs a warning and returns `None`
without raising. -/
theorem getJson_404_returns_none (t : Transport) (url : String)
    (params : Option (List (String × String))) (r : Response)
    (h : r.status_code = 404) :
    (get_json t url params (fun _ => HttpResult.success r)).2 =
      Except.ok none ∧
    { level := LogLevel.warning, message := "not found" } ∈
      (get_json t url params (fun _ => HttpResult.success r)).1 := by
  have hs : is_success r = false := by
    simp [is_success, h]
  simp [get_json, hs, h, NOT_FOUND]

/-- Witness for C4: a concrete 404 response yields `Except.ok none` and a
"not found" warning. -/
theorem getJson_404_returns_none_witness :
    (get_json { token := none, host := "localhost" } ("/x") none
        (fun _ => HttpResult.success
          { status_code := 404, text := "missing",
            json := Except.error "e" })).2 = Except.ok none ∧
    { level := LogLevel.warning, message := "not found" } ∈
      (get_json { token := none, host := "localhost" } ("/x") none
        (fun _ => HttpResult.success
          { status_code := 404, text := "missing",
            json := Except.error "e" })).1 :=
  getJson_404_returns_none { token := none, host := "localhost" } ("/x")
    none { status_code := 404, text := "missing", json := Except.error "e" }
    (by decide)

/-- C5: when the underlying client raises a `RequestException` (network
error or timeout), each verb raises a `TransportException` whose
message is the text of the underlying error and which has no status
code. -/
theorem connection_failure_raises_codeless
    (t : Transport) (url : String) (params : Option (List (String × String)))
    (payload : Json) (files : FilesArg) (msg : String) :
    (get_json t url params (fun _ => HttpResult.requestError msg)).2 =
      Except.error { message := msg, code := none } ∧
    (post_json t url payload files
        (fun _ => HttpResult.requestError msg)).2 =
      Except.error { message := msg, code := none } ∧
    (put_json t url payload (fun _ => HttpResult.requestError msg)).2 =
      Except.error { message := msg, code := none } :=
  ⟨rfl, rfl, rfl⟩

/-- C6: `is_success` is a pure predicate, true exactly on status codes in
[200, 300); in particular true at 200, 204, 299 and false at 199, 300,
404, 500. -/
theorem is_success_iff_2xx :
    (∀ r : Response,
      is_success r = decide (200 ≤ r.status_code ∧ r.status_code < 300)) ∧
    ([200, 204, 299].all (fun c =>
      is_success { status_code := c, text := "", json := Except.ok Json.null })
        = true) ∧
    ([199, 300, 404, 500].all (fun c =>
      !is_success { status_code := c, text := "", json := Except.ok Json.null })
        = true) := by
  refine ⟨fun r => ?_, by decide, by decide⟩
  simp only [is_success, decide_eq_decide]
  omega

/-- C7: on a response with status in [200, 300), `get_json` returns the
parsed JSON body. -/
theorem getJson_success_returns_parsed_body
    (t : Transport) (url : String) (params : Option (List (String × String)))
    (r : Response) (j : Json)
    (h1 : 200 ≤ r.status_code) (h2 : r.status_code < 300)
    (hj : r.json = Except.ok j) :
    (get_json t url params (fun _ => HttpResult.success r)).2 =
      Except.ok (some j) := by
  have hs : is_success r = true := by
    simp only [is_success, decide_eq_true_eq]
    omega
  simp [get_json, hs, hj]

/-- Witness for C7: a 200 response whose body parses to the object
\x7b"a": 1\x7d yields exactly that object. -/
theorem getJson_success_returns_parsed_body_witness :
    (get_json { token := none, host := "localhost" } ("/x") none
        (fun _ => HttpResult.success
          { status_code := 200, text := "\x7b\"a\":1\x7d",
            json := Except.ok (Json.obj [("a", Json.num 1)]) })).2 =
      Except.ok (some (Json.obj [("a", Json.num 1)])) :=
  getJson_success_returns_parsed_body { token := none, host := "localhost" }
    ("/x") none
    { status_code := 200, text := "\x7b\"a\":1\x7d",
      json := Except.ok (Json.obj [("a", Json.num 1)]) }
    (Json.obj [("a", Json.num 1)]) (by decide) (by decide) rfl

/-- C8: `REQUEST_TIMEOUT` is 30 and every request built by the three
verbs carries `timeout = 30`; when the client fails at that timeout
(a `RequestException`), the failure is translated into a
`TransportException` without a code. -/
theorem requests_use_timeout_30 :
    REQUEST_TIMEOUT = 30 ∧
    (∀ (t : Transport) (url : String)
        (params : Option (List (String × String))),
      (get_request t url params).timeout = 30) ∧
    (∀ (t : Transport) (url : String) (payload : Json) (files : FilesArg),
      (post_request t url payload files).timeout = 30) ∧
    (∀ (t : Transport) (url : String) (payload : Json),
      (put_request t url payload).timeout = 30) ∧
    (∀ (t : Transport) (url : String) (payload : Json) (msg : String),
      (put_json t url payload (fun _ => HttpResult.requestError msg)).2 =
        Except.error { message := msg, code := none }) :=
  ⟨rfl, fun _ _ _ => rfl, fun _ _ _ _ => rfl, fun _ _ _ => rfl,
   fun _ _ _ _ => rfl⟩

/-- C9: `set_host` changes only the stored host (to the resolved URL) and
leaves the token unchanged; `set_token` changes only the stored token,
leaves the host unchanged, and returns the mutated instance itself. -/
theorem set_host_set_token_frame :
    (∀ (resolve_host : String → Nat → String) (t : Transport)
        (host : String) (port : Nat),
      (set_host resolve_host t host port).token = t.token ∧
      (set_host resolve_host t host port).host = resolve_host host port) ∧
    (∀ (t : Transport) (tok : Option String),
      (set_token t tok).1.host = t.host ∧
      (set_token t tok).1.token = tok ∧
      (set_token t tok).2 = (set_token t tok).1) :=
  ⟨fun _ _ _ _ => ⟨rfl, rfl⟩, fun _ _ => ⟨rfl, rfl, rfl⟩⟩

/-- C10: `is_success` first asserts its argument is a `Response`: on any
actual `Response` the assertion passes and the status-range boolean is
returned, while on any other value the assertion raises before any
status code is inspected. -/
theorem is_success_assert_isinstance :
    (∀ r : Response, is_success_checked (PyValue.response r) =
      Except.ok (is_success r)) ∧
    (∀ d : String, is_success_checked (PyValue.other d) =
      Except.error assertionError) :=
  ⟨fun _ => rfl, fun _ => rfl⟩
